import Mathlib

/-!
# Verification of the gesture-drawing pipeline

Shallow embedding of the algorithmic core of the `gesture-drawing-verse`
repository, together with theorems settling the specification claims about it.

Embedded source units:
* `Gestures`  — `src/src/lib/gestures.ts` (tool-aware variant: landmark
  smoothing, geometric classifier).
* `Part004`   — `src/unnamed/part_004` (earlier variant: smoothing with a
  cardinality check, timer-based gesture debouncing).
* `Canvas`    — `src/unnamed/part_002` (DrawingCanvas: point queue /
  tessellation of the landmark and pointer input paths, stroke history undo).

JavaScript numbers are modelled by the real numbers; timestamps (only compared
and added) by the integers, in milliseconds.  Module-level mutable state is modelled by
explicit state passing: each stateful function takes the stored state and
returns its new value.  A JavaScript `TypeError` escaping a computation is
modelled by `Except Unit`.
-/

open Classical

/-- A hand landmark `{x, y, z}` (`HandLandmark` in `src/src/lib/gestures.ts`). -/
@[ext] structure HandLandmark where
  x : ℝ
  y : ℝ
  z : ℝ

/-- Landmark-array indexing `landmarks[i]`.  Every access in the embedded code
is guarded by the source's own length checks, so the default value is never
reached on the guarded paths. -/
def lm (landmarks : List HandLandmark) (i : ℕ) : HandLandmark :=
  landmarks.getD i ⟨0, 0, 0⟩

/-- Euclidean distance in `x, y, z` between two landmarks (the code's
`Math.sqrt(dx*dx + dy*dy + dz*dz)`). -/
noncomputable def dist3 (a b : HandLandmark) : ℝ :=
  Real.sqrt ((b.x - a.x) * (b.x - a.x) + (b.y - a.y) * (b.y - a.y) +
    (b.z - a.z) * (b.z - a.z))

namespace Gestures

/-- `GestureType` enumeration of `src/src/lib/gestures.ts`. -/
inductive GestureType where
  | NONE
  | DRAWING
  | ERASING
  | LINE
  | RECTANGLE
  | CIRCLE
  | SELECTING
deriving DecidableEq, Repr

/-- `Tool` union type of `src/src/lib/gestures.ts`. -/
inductive Tool where
  | draw
  | erase
  | line
  | rectangle
  | circle
  | select
deriving DecidableEq, Repr

/-- `const smoothingFactor = 0.5` (`src/src/lib/gestures.ts`, line 29). -/
def smoothingFactor : ℝ := 0.5

/-- The per-point dynamic smoothing weight of `smoothLandmarks`
(`src/src/lib/gestures.ts`, lines 57–61):
`Math.max(0.2, smoothingFactor - velocity * 0.6)` where `velocity` is the
Euclidean displacement between the stored point and the incoming point. -/
noncomputable def dynSmoothing (prev landmark : HandLandmark) : ℝ :=
  let velocity := dist3 prev landmark
  max 0.2 (smoothingFactor - velocity * 0.6)

/-- The body of the `landmarks.map` callback in `smoothLandmarks`
(`src/src/lib/gestures.ts`, lines 55–68): blend the stored point and the
incoming point with the dynamic weight. -/
noncomputable def smoothPoint (prev landmark : HandLandmark) : HandLandmark :=
  let w := dynSmoothing prev landmark
  ⟨prev.x * w + landmark.x * (1 - w),
   prev.y * w + landmark.y * (1 - w),
   prev.z * w + landmark.z * (1 - w)⟩

/-- `smoothLandmarks` (`src/src/lib/gestures.ts`, lines 49–72) in
state-passing form: the first component of the result is the returned array,
the second the new value of the module variable `previousLandmarks`.
The guard is only `previousLandmarks.length === 0`; when the stored state is
nonempty but shorter than the input, `previousLandmarks[i]` is `undefined`
for the excess indices and reading `.x` from it throws, modelled by
`.error ()` (the stored state is unchanged, since the assignment to
`previousLandmarks` happens after the `map`). -/
noncomputable def smoothLandmarks (previousLandmarks landmarks : List HandLandmark) :
    Except Unit (List HandLandmark × List HandLandmark) :=
  if previousLandmarks.isEmpty then .ok (landmarks, landmarks)
  else if previousLandmarks.length < landmarks.length then .error ()
  else
    let smoothed := List.zipWith (fun landmark prev => smoothPoint prev landmark)
      landmarks previousLandmarks
    .ok (smoothed, smoothed)

/-- `isIndexFingerRaised` (`src/src/lib/gestures.ts`, lines 34–46): requires at
least 13 landmarks and compares `indexMCP.y - indexTip.y` against the fixed
absolute threshold `0.08`. -/
def isIndexFingerRaised (landmarks : List HandLandmark) : Prop :=
  13 ≤ landmarks.length ∧ 0.08 < (lm landmarks 5).y - (lm landmarks 8).y

/-- `handScale` (`src/src/lib/gestures.ts`, lines 91–94): planar distance
between index MCP (5) and middle MCP (9). -/
noncomputable def handScale (s : List HandLandmark) : ℝ :=
  Real.sqrt (((lm s 5).x - (lm s 9).x) ^ 2 + ((lm s 5).y - (lm s 9).y) ^ 2)

/-- `thumbIndexDistance` (`src/src/lib/gestures.ts`, lines 97–100): planar
distance between thumb tip (4) and index tip (8). -/
noncomputable def thumbIndexDistance (s : List HandLandmark) : ℝ :=
  Real.sqrt (((lm s 4).x - (lm s 8).x) ^ 2 + ((lm s 4).y - (lm s 8).y) ^ 2)

/-- `isPinching` (`src/src/lib/gestures.ts`, line 102):
`thumbIndexDistance < handScale * 0.35`. -/
def isPinching (s : List HandLandmark) : Prop :=
  thumbIndexDistance s < handScale s * 0.35

/-- The `switch (currentTool)` of `detectGesture`
(`src/src/lib/gestures.ts`, lines 110–121). -/
def toolGesture : Tool → GestureType
  | .draw => .DRAWING
  | .line => .LINE
  | .rectangle => .RECTANGLE
  | .circle => .CIRCLE
  | _ => .NONE

/-- The `try` body of `detectGesture` (`src/src/lib/gestures.ts`,
lines 78–124), after the length guard: smooth the landmarks (possibly
faulting), then decide the gesture.  State-passing as in `smoothLandmarks`. -/
noncomputable def detectGestureBody (previousLandmarks landmarks : List HandLandmark)
    (currentTool : Tool) : Except Unit (GestureType × List HandLandmark) :=
  match smoothLandmarks previousLandmarks landmarks with
  | .error e => .error e
  | .ok r =>
    let smoothed := r.1
    if isPinching smoothed ∧ currentTool = .erase then
      .ok (.ERASING, r.2)
    else if isIndexFingerRaised smoothed then
      .ok (toolGesture currentTool, r.2)
    else
      .ok (.NONE, r.2)

/-- `detectGesture` (`src/src/lib/gestures.ts`, lines 75–129) in state-passing
form.  `none` models an absent (`undefined`) landmarks argument, covered by the
code's `!landmarks` test; fewer than 21 landmarks short-circuit to `NONE`
before the `try`; a fault inside the body is caught and degrades to `NONE`
with the stored state unchanged. -/
noncomputable def detectGesture (previousLandmarks : List HandLandmark)
    (landmarks : Option (List HandLandmark)) (currentTool : Tool) :
    GestureType × List HandLandmark :=
  match landmarks with
  | none => (.NONE, previousLandmarks)
  | some l =>
    if l.length < 21 then (.NONE, previousLandmarks)
    else
      match detectGestureBody previousLandmarks l currentTool with
      | .ok r => r
      | .error _ => (.NONE, previousLandmarks)

end Gestures

namespace Part004

/-- `GestureType` enumeration of `src/unnamed/part_004`. -/
inductive GestureType where
  | NONE
  | DRAWING
  | ERASING
  | CLEAR
deriving DecidableEq, Repr

/-- `const smoothingFactor = 0.65` (`src/unnamed/part_004`, line 24). -/
def smoothingFactor : ℝ := 0.65

/-- Per-point dynamic smoothing weight of `smoothLandmarks`
(`src/unnamed/part_004`, lines 40–48):
`Math.max(0.3, smoothingFactor - velocity * 0.5)`. -/
noncomputable def dynSmoothing (prev landmark : HandLandmark) : ℝ :=
  let velocity := dist3 prev landmark
  max 0.3 (smoothingFactor - velocity * 0.5)

/-- Body of the `landmarks.map` callback of `smoothLandmarks`
(`src/unnamed/part_004`, lines 37–55). -/
noncomputable def smoothPoint (prev landmark : HandLandmark) : HandLandmark :=
  let w := dynSmoothing prev landmark
  ⟨prev.x * w + landmark.x * (1 - w),
   prev.y * w + landmark.y * (1 - w),
   prev.z * w + landmark.z * (1 - w)⟩

/-- `smoothLandmarks` (`src/unnamed/part_004`, lines 29–61) in state-passing
form.  Unlike the `Gestures` variant, the guard also covers a cardinality
change (`previousLandmarks.length !== landmarks.length`), so the pointwise
blend only ever runs on equal-length lists and cannot fault. -/
noncomputable def smoothLandmarks (previousLandmarks landmarks : List HandLandmark) :
    List HandLandmark × List HandLandmark :=
  if previousLandmarks.isEmpty ∨ previousLandmarks.length ≠ landmarks.length then
    (landmarks, landmarks)
  else
    let smoothed := List.zipWith (fun landmark prev => smoothPoint prev landmark)
      landmarks previousLandmarks
    (smoothed, smoothed)

/-- `let gestureDebounceDelay = 150` (`src/unnamed/part_004`, line 26). -/
def gestureDebounceDelay : ℤ := 150

/-- The debounce state of `detectGesture` (`src/unnamed/part_004`,
lines 22–26, 119–135): the module variables `previousGesture` (the stable
gesture) and `gestureDebounceTimer`, the latter modelled as the pending
gesture together with the absolute time at which the scheduled
`setTimeout` callback fires (times in integral milliseconds). -/
structure DebounceState where
  previousGesture : GestureType
  timer : Option (GestureType × ℤ)
deriving DecidableEq

/-- The initial debounce state (`previousGesture = NONE`, no timer pending;
`src/unnamed/part_004`, lines 23–25). -/
def initialDebounceState : DebounceState := ⟨.NONE, none⟩

/-- Run the scheduled `setTimeout` callback (`src/unnamed/part_004`,
lines 128–131) if its deadline has been reached by time `now`: the pending
gesture becomes `previousGesture` and the timer slot is cleared.  In the
cooperative run-loop model the callback runs between classification calls,
before any call made at or after its deadline. -/
def fireDueTimer (s : DebounceState) (now : ℤ) : DebounceState :=
  match s.timer with
  | some (g, deadline) => if deadline ≤ now then ⟨g, none⟩ else s
  | none => s

/-- The debouncing tail of `detectGesture` (`src/unnamed/part_004`,
lines 119–137), as a step function on the raw classification
`detectedGesture` of a call made at time `now`: first any due timer callback
runs, then, if the raw classification differs from the stable gesture, the
existing timer (if any) is cleared, a fresh one is armed for
`now + gestureDebounceDelay`, and the stable gesture is returned; otherwise
the raw classification (equal to the stable gesture) is returned and the
timer slot is left untouched. -/
def debounceStep (s : DebounceState) (detectedGesture : GestureType) (now : ℤ) :
    GestureType × DebounceState :=
  let s := fireDueTimer s now
  if detectedGesture ≠ s.previousGesture then
    (s.previousGesture, ⟨s.previousGesture, some (detectedGesture, now + gestureDebounceDelay)⟩)
  else
    (detectedGesture, s)

/-- Run a sequence of classification calls, given as pairs of raw
classification and call time, through the debouncer, collecting the gestures
returned to the caller. -/
def runDebounce (s : DebounceState) : List (GestureType × ℤ) → List GestureType × DebounceState
  | [] => ([], s)
  | (g, t) :: rest =>
    let r := debounceStep s g t
    let tail := runDebounce r.2 rest
    (r.1 :: tail.1, tail.2)

end Part004

namespace Canvas

/-- A queued stroke point `{x, y}` (`src/unnamed/part_002`, line 25; the
optional pressure field only rescales the stroke width and carries no
geometry, so it is omitted). -/
@[ext] structure Point where
  x : ℝ
  y : ℝ

/-- Planar Euclidean distance, the code's `Math.sqrt(dx * dx + dy * dy)`
(`src/unnamed/part_002`, line 202). -/
noncomputable def dist2 (a b : Point) : ℝ :=
  Real.sqrt ((b.x - a.x) * (b.x - a.x) + (b.y - a.y) * (b.y - a.y))

/-- The body of the interpolation loop of the landmark effect
(`src/unnamed/part_002`, lines 208–212): the point at parameter `i / steps`
on the segment from the last accepted point to the incoming point
(`dx * ratio`, `dy * ratio` added to the last point). -/
noncomputable def lerp (lastPoint p : Point) (steps i : ℕ) : Point :=
  ⟨lastPoint.x + (p.x - lastPoint.x) * ((i : ℝ) / (steps : ℝ)),
   lastPoint.y + (p.y - lastPoint.y) * ((i : ℝ) / (steps : ℝ))⟩

/-- The interpolation loop of the landmark effect (`src/unnamed/part_002`,
lines 206–213): `for (let i = 1; i < steps; i++)` pushes the interpolated
points in order. -/
noncomputable def synthPoints (lastPoint p : Point) (steps : ℕ) : List Point :=
  ((List.range steps).drop 1).map (lerp lastPoint p steps)

/-- The point-acceptance step of the landmark effect while a stroke session is
active (`src/unnamed/part_002`, lines 198–218): compute the distance from the
last accepted position; if it exceeds 1, first (when it exceeds 15)
synthesize `Math.floor(distance / 5) - 1` interpolated points, then push the
real point and update the last position; otherwise drop the point.  Returns
the new queue and the new last accepted position. -/
noncomputable def landmarkAccept (queue : List Point) (lastPoint p : Point) :
    List Point × Point :=
  let distance := dist2 lastPoint p
  if 1 < distance then
    let withSynth :=
      if 15 < distance then queue ++ synthPoints lastPoint p ⌊distance / 5⌋₊
      else queue
    (withSynth ++ [p], p)
  else (queue, lastPoint)

/-- The point-acceptance step of `handlePointerMove` (`src/unnamed/part_002`,
lines 274–286): if the distance from the last accepted position exceeds 1 the
raw point is pushed (no interpolation), else it is dropped. -/
noncomputable def pointerMoveAccept (queue : List Point) (lastPoint p : Point) :
    List Point × Point :=
  let distance := dist2 lastPoint p
  if 1 < distance then (queue ++ [p], p)
  else (queue, lastPoint)

/-- The undo-relevant state of `DrawingCanvas` (`src/unnamed/part_002`,
lines 20, 225–226): the `strokeHistory` stack of snapshots (top = last
element, as pushed by `[...prev, imageData]`) and the current raster content
of the surface.  Snapshots are opaque (`ImageData`), so the snapshot type is
a parameter. -/
structure CanvasState (α : Type) where
  strokeHistory : List α
  surface : α

/-- Completing a stroke captures the surface and pushes it
(`src/unnamed/part_002`, lines 224–226 and 303–305). -/
def pushStroke {α : Type} (s : CanvasState α) (snapshot : α) : CanvasState α :=
  ⟨s.strokeHistory ++ [snapshot], snapshot⟩

/-- `undoLastStroke` (`src/unnamed/part_002`, lines 328–352; identically
`src/unnamed/part_001`, lines 229–247): a no-op on an empty stack; otherwise
pop the top snapshot, clear the surface, and restore the new top if the stack
is still nonempty.  `blank` is the cleared raster. -/
def undoLastStroke {α : Type} (blank : α) (s : CanvasState α) : CanvasState α :=
  if s.strokeHistory.isEmpty then s
  else
    let newHistory := s.strokeHistory.dropLast
    ⟨newHistory, (newHistory.getLast?).getD blank⟩

end Canvas

/-! ### Claim-side notions

Definitions below this point are not part of the embedded program: they state
notions the claims quantify over (a frame builder, the scaling transform, the
unit box) and, for the refinement comparison of claim C1, the decision
procedure exactly as the claim words it. -/

/-- Build a 21-landmark frame from an index function. -/
def mkFrame (f : ℕ → HandLandmark) : List HandLandmark :=
  (List.range 21).map f

/-- The claim's uniform scaling by a factor 2 about the wrist (landmark 0). -/
noncomputable def scaleAboutWrist (frame : List HandLandmark) : List HandLandmark :=
  let w := lm frame 0
  frame.map fun p =>
    ⟨w.x + 2 * (p.x - w.x), w.y + 2 * (p.y - w.y), w.z + 2 * (p.z - w.z)⟩

/-- All three coordinates of a landmark lie in `[0, 1]`. -/
def inUnitBox (p : HandLandmark) : Prop :=
  p.x ∈ Set.Icc (0 : ℝ) 1 ∧ p.y ∈ Set.Icc (0 : ℝ) 1 ∧ p.z ∈ Set.Icc (0 : ℝ) 1

namespace ClaimC1

/-- Modelled from the claim's wording (spec §4.2, index extension): the
vertical offset `indexMCP.y − indexTip.y` exceeds half the doubled segment
length `|indexMCP.y − indexPIP.y| * 2`. -/
def indexExtended (s : List HandLandmark) : Prop :=
  |(lm s 5).y - (lm s 6).y| * 2 * 0.5 < (lm s 5).y - (lm s 8).y

/-- Modelled from the claim's wording (spec §4.2, middle extension): the
symmetric computation for the middle finger (MCP 9, PIP 10, tip 12). -/
def middleExtended (s : List HandLandmark) : Prop :=
  |(lm s 9).y - (lm s 10).y| * 2 * 0.5 < (lm s 9).y - (lm s 12).y

/-- Modelled from the claim's wording (spec §4.2, pinch): thumb-tip/index-tip
distance below `handScale * 0.35` (the upper end of the spec's 0.3–0.35
range, matching the embedded variant's constant). -/
def pinch (s : List HandLandmark) : Prop :=
  Gestures.thumbIndexDistance s < Gestures.handScale s * 0.35

/-- The decision order exactly as claim C1 states it: pinch and tool Erase
give Erasing; else index extended, middle not extended and no pinch give the
tool-dependent gesture; else None. -/
noncomputable def decision (s : List HandLandmark) (tool : Gestures.Tool) :
    Gestures.GestureType :=
  if pinch s ∧ tool = .erase then .ERASING
  else if indexExtended s ∧ ¬ middleExtended s ∧ ¬ pinch s then
    Gestures.toolGesture tool
  else .NONE

/-- Concrete frame refuting the claimed decision order: index raised (tip `y`
0.3 versus MCP `y` 0.5) while the thumb tip coincides with the index tip
(pinching at any positive threshold); middle MCP moved to make the hand scale
positive. -/
def frame : List HandLandmark :=
  mkFrame fun i =>
    if i = 8 then ⟨0.5, 0.3, 0⟩
    else if i = 4 then ⟨0.5, 0.3, 0⟩
    else if i = 9 then ⟨0.6, 0.5, 0⟩
    else ⟨0.5, 0.5, 0⟩

/-- Frame for the witness of the amended decision order: index raised, thumb
far from the index tip (no pinch). -/
def witFrame : List HandLandmark :=
  mkFrame fun i =>
    if i = 8 then ⟨0.5, 0.3, 0⟩
    else if i = 4 then ⟨0.9, 0.9, 0⟩
    else if i = 9 then ⟨0.6, 0.5, 0⟩
    else ⟨0.5, 0.5, 0⟩

end ClaimC1

/-- Concrete frame for claim C3: identical to a resting hand except that the
index tip sits 0.05 above the index MCP — below the raised threshold 0.08,
while the 2×-scaled copy has offset 0.1, above it. -/
def c3Frame : List HandLandmark :=
  mkFrame fun i => if i = 8 then ⟨0.5, 0.45, 0⟩ else ⟨0.5, 0.5, 0⟩

/-- A resting frame (all landmarks coincide), fixed by `scaleAboutWrist`. -/
def restFrame : List HandLandmark :=
  mkFrame fun _ => ⟨0.5, 0.5, 0⟩

/-- The call sequence of claim C2's debounce scenario: the classifier has
stabilised on `DRAWING` (calls at 0 ms and 200 ms), the raw classification
flips to `NONE` for a single call at 210 ms and is back to `DRAWING` at
220 ms — within 10 ms, far less than the 150 ms debounce delay — and stays
`DRAWING` (call at 400 ms). -/
def c2Calls : List (Part004.GestureType × ℤ) :=
  [(.DRAWING, 0), (.DRAWING, 200), (.NONE, 210), (.DRAWING, 220), (.DRAWING, 400)]

/-! ## Helper lemmas -/

theorem dist3_nonneg (a b : HandLandmark) : 0 ≤ dist3 a b :=
  Real.sqrt_nonneg _

theorem dist3_self (a : HandLandmark) : dist3 a a = 0 := by
  simp [dist3]

theorem mkFrame_length (f : ℕ → HandLandmark) : (mkFrame f).length = 21 := by
  simp [mkFrame]

theorem lm_mkFrame (f : ℕ → HandLandmark) {i : ℕ} (hi : i < 21) :
    lm (mkFrame f) i = f i := by
  simp [lm, mkFrame, List.getD_eq_getElem?_getD, List.getElem?_map, List.getElem?_range, hi]

theorem lm_zipWith (f : HandLandmark → HandLandmark → HandLandmark)
    (l₁ l₂ : List HandLandmark) {i : ℕ} (h₁ : i < l₁.length) (h₂ : i < l₂.length) :
    lm (List.zipWith f l₁ l₂) i = f (lm l₁ i) (lm l₂ i) := by
  have hlen : i < (List.zipWith f l₁ l₂).length := by
    simp only [List.length_zipWith, lt_min_iff]; exact ⟨h₁, h₂⟩
  simp [lm, List.getD_eq_getElem?_getD, List.getElem?_eq_getElem, hlen, h₁, h₂]

theorem Gestures.smoothLandmarks_nil (frame : List HandLandmark) :
    Gestures.smoothLandmarks [] frame = .ok (frame, frame) := by
  simp [Gestures.smoothLandmarks]

theorem Gestures.smoothLandmarks_eq_zipWith (st frame : List HandLandmark)
    (hne : st ≠ []) (hlen : frame.length ≤ st.length) :
    Gestures.smoothLandmarks st frame =
      .ok (List.zipWith (fun landmark prev => Gestures.smoothPoint prev landmark) frame st,
        List.zipWith (fun landmark prev => Gestures.smoothPoint prev landmark) frame st) := by
  simp [Gestures.smoothLandmarks, List.isEmpty_iff, hne, Nat.not_lt.mpr hlen]

theorem Gestures.detectGesture_eval (st l : List HandLandmark) (tool : Gestures.Tool)
    (h21 : ¬ l.length < 21) (sm st2 : List HandLandmark)
    (hsm : Gestures.smoothLandmarks st l = .ok (sm, st2)) :
    Gestures.detectGesture st (some l) tool =
      (if Gestures.isPinching sm ∧ tool = .erase then .ERASING
       else if Gestures.isIndexFingerRaised sm then Gestures.toolGesture tool
       else .NONE, st2) := by
  by_cases h1 : Gestures.isPinching sm ∧ tool = .erase
  · simp [Gestures.detectGesture, h21, Gestures.detectGestureBody, hsm, h1]
  · by_cases h2 : Gestures.isIndexFingerRaised sm
    · simp [Gestures.detectGesture, h21, Gestures.detectGestureBody, hsm, h1, h2]
    · simp [Gestures.detectGesture, h21, Gestures.detectGestureBody, hsm, h1, h2]

theorem Canvas.undo_iterate_history {α : Type} (blank : α) :
    ∀ (n : ℕ) (s : Canvas.CanvasState α), s.strokeHistory.length = n →
      ((Canvas.undoLastStroke blank)^[n] s).strokeHistory = [] := by
  intro n
  induction n with
  | zero =>
    intro s hs
    simpa [List.length_eq_zero] using hs
  | succ k ih =>
    intro s hs
    rw [Function.iterate_succ_apply]
    apply ih
    have hne : ¬ s.strokeHistory.isEmpty := by
      cases h : s.strokeHistory with
      | nil => rw [h] at hs; simp at hs
      | cons a t => simp [h]
    simp [Canvas.undoLastStroke, hne, List.length_dropLast, hs]

theorem Canvas.foldl_pushStroke_length {α : Type} :
    ∀ (snaps : List α) (s0 : Canvas.CanvasState α),
      (snaps.foldl Canvas.pushStroke s0).strokeHistory.length =
        s0.strokeHistory.length + snaps.length := by
  intro snaps
  induction snaps with
  | nil => intro s0; simp
  | cons a t ih =>
    intro s0
    rw [List.foldl_cons, ih]
    simp [Canvas.pushStroke]
    omega

theorem Gestures.dynSmoothing_mem (prev landmark : HandLandmark) :
    Gestures.dynSmoothing prev landmark ∈ Set.Icc (0.2 : ℝ) 0.5 := by
  have hv : 0 ≤ dist3 prev landmark := dist3_nonneg _ _
  constructor
  · exact le_max_left _ _
  · apply max_le (by norm_num)
    rw [Gestures.smoothingFactor]
    nlinarith

theorem Gestures.dist3_smoothPoint (prev landmark : HandLandmark) :
    dist3 prev (Gestures.smoothPoint prev landmark) =
      (1 - Gestures.dynSmoothing prev landmark) * dist3 prev landmark := by
  have hw1 : Gestures.dynSmoothing prev landmark ≤ 1 :=
    le_trans (Gestures.dynSmoothing_mem prev landmark).2 (by norm_num)
  have h1 : (0 : ℝ) ≤ 1 - Gestures.dynSmoothing prev landmark := by linarith
  set w := Gestures.dynSmoothing prev landmark with hwdef
  show dist3 prev
      ⟨prev.x * w + landmark.x * (1 - w), prev.y * w + landmark.y * (1 - w),
        prev.z * w + landmark.z * (1 - w)⟩ = (1 - w) * dist3 prev landmark
  rw [dist3, dist3]
  have harg :
      (prev.x * w + landmark.x * (1 - w) - prev.x) * (prev.x * w + landmark.x * (1 - w) - prev.x) +
        (prev.y * w + landmark.y * (1 - w) - prev.y) * (prev.y * w + landmark.y * (1 - w) - prev.y) +
        (prev.z * w + landmark.z * (1 - w) - prev.z) * (prev.z * w + landmark.z * (1 - w) - prev.z) =
      (1 - w) ^ 2 * ((landmark.x - prev.x) * (landmark.x - prev.x) +
        (landmark.y - prev.y) * (landmark.y - prev.y) +
        (landmark.z - prev.z) * (landmark.z - prev.z)) := by
    ring
  rw [harg, Real.sqrt_mul (sq_nonneg _), Real.sqrt_sq h1]

/-! ## Claim theorems -/

/-- **C9** — Undo correctness: with an empty stroke history `undoLastStroke`
is a no-op; with a nonempty one it pops the top snapshot and restores the
surface to the new top, or to the blank raster if the stack became empty;
consequently, starting from an empty history, after `N` completed strokes `N`
undos followed by one more undo leave the state identical to after the `N`
undos. -/
theorem undoLastStroke_correct {α : Type} (blank : α) :
    (∀ s : Canvas.CanvasState α, s.strokeHistory = [] →
      Canvas.undoLastStroke blank s = s) ∧
    (∀ s : Canvas.CanvasState α, s.strokeHistory ≠ [] →
      Canvas.undoLastStroke blank s =
        ⟨s.strokeHistory.dropLast, (s.strokeHistory.dropLast.getLast?).getD blank⟩) ∧
    (∀ (s0 : Canvas.CanvasState α) (snaps : List α), s0.strokeHistory = [] →
      Canvas.undoLastStroke blank
          ((Canvas.undoLastStroke blank)^[snaps.length] (snaps.foldl Canvas.pushStroke s0)) =
        (Canvas.undoLastStroke blank)^[snaps.length] (snaps.foldl Canvas.pushStroke s0)) := by
  refine ⟨?_, ?_, ?_⟩
  · intro s hs
    simp [Canvas.undoLastStroke, hs]
  · intro s hs
    simp [Canvas.undoLastStroke, List.isEmpty_iff, hs]
  · intro s0 snaps h0
    have hlen : (snaps.foldl Canvas.pushStroke s0).strokeHistory.length = snaps.length := by
      rw [Canvas.foldl_pushStroke_length, h0]
      simp
    have hempty := Canvas.undo_iterate_history blank snaps.length _ hlen
    simp [Canvas.undoLastStroke, hempty]

/-- Witness for C9 at a concrete state: undoing `⟨[1, 2], 2⟩` restores
snapshot `1`, and after two strokes two undos make a third undo a no-op. -/
theorem undoLastStroke_correct_witness :
    Canvas.undoLastStroke (0 : ℕ) ⟨[1, 2], 2⟩ = ⟨[1], 1⟩ ∧
    Canvas.undoLastStroke (0 : ℕ)
        ((Canvas.undoLastStroke 0)^[2] ([1, 2].foldl Canvas.pushStroke ⟨[], 0⟩)) =
      (Canvas.undoLastStroke 0)^[2] ([1, 2].foldl Canvas.pushStroke ⟨[], 0⟩) := by
  constructor
  · have h := (undoLastStroke_correct (0 : ℕ)).2.1 ⟨[1, 2], 2⟩ (by simp)
    simpa using h
  · have h := (undoLastStroke_correct (0 : ℕ)).2.2 ⟨[], 0⟩ [1, 2] rfl
    simpa using h

/-- **C2** (code bug) — The debouncer does not cancel the pending timer when
the raw classification returns to the stable gesture: on the call sequence
`c2Calls` the raw value flips from `DRAWING` to `NONE` and back within 10 ms
(far less than the 150 ms delay), yet the timer armed for the one-frame
`NONE` still fires, so the gesture returned to the caller transitions from
`DRAWING` to `NONE` at the 400 ms call. -/
theorem debounce_flip_becomes_visible :
    (Part004.runDebounce Part004.initialDebounceState c2Calls).1 =
      [.NONE, .DRAWING, .DRAWING, .DRAWING, .NONE] ∧
    (220 : ℤ) - 210 < Part004.gestureDebounceDelay := by
  constructor
  · decide
  · norm_num [Part004.gestureDebounceDelay]

/-- **C4** (counterexample) — In the feature-complete variant a call whose
landmark count differs from the nonempty stored state is *not* returned
verbatim: with stored state of two points and a one-point input the output is
the velocity-weighted blend `⟨0.8, 0, 0⟩`, not the input `⟨1, 0, 0⟩`, and the
blend (not the input) is stored. -/
theorem smoothLandmarks_mismatch_blends :
    Gestures.smoothLandmarks [⟨0, 0, 0⟩, ⟨0, 0, 0⟩] [⟨1, 0, 0⟩] =
      .ok ([⟨0.8, 0, 0⟩], [⟨0.8, 0, 0⟩]) ∧
    ([⟨0.8, 0, 0⟩] : List HandLandmark) ≠ [⟨1, 0, 0⟩] ∧
    ([⟨0, 0, 0⟩, ⟨0, 0, 0⟩] : List HandLandmark).length ≠
      ([⟨1, 0, 0⟩] : List HandLandmark).length := by
  have hd : dist3 ⟨0, 0, 0⟩ ⟨1, 0, 0⟩ = 1 := by
    simp [dist3]
  have hw : Gestures.dynSmoothing ⟨0, 0, 0⟩ ⟨1, 0, 0⟩ = 0.2 := by
    rw [Gestures.dynSmoothing, hd, Gestures.smoothingFactor]
    norm_num
  have hp : Gestures.smoothPoint ⟨0, 0, 0⟩ ⟨1, 0, 0⟩ = ⟨0.8, 0, 0⟩ := by
    rw [Gestures.smoothPoint, hw]
    ext <;> norm_num
  refine ⟨?_, ?_, by simp⟩
  · rw [Gestures.smoothLandmarks_eq_zipWith _ _ (by simp) (by simp)]
    simp [hp]
  · simp [HandLandmark.ext_iff]
    norm_num

/-- **C4** (amended) — Only the empty-state call of the feature-complete
variant returns and stores the input verbatim; the earlier variant
(`part_004`) does return the input verbatim on the first call and on every
cardinality change, as claimed. -/
theorem smoothLandmarks_verbatim_cases :
    (∀ frame : List HandLandmark,
      Gestures.smoothLandmarks [] frame = .ok (frame, frame)) ∧
    (∀ st frame : List HandLandmark, st = [] ∨ st.length ≠ frame.length →
      Part004.smoothLandmarks st frame = (frame, frame)) := by
  constructor
  · intro frame
    exact Gestures.smoothLandmarks_nil frame
  · intro st frame h
    rcases h with h | h
    · simp [Part004.smoothLandmarks, h]
    · simp [Part004.smoothLandmarks, h]

/-- Witness for the amended C4 at concrete inputs. -/
theorem smoothLandmarks_verbatim_cases_witness :
    Gestures.smoothLandmarks [] [⟨0.5, 0.5, 0⟩] = .ok ([⟨0.5, 0.5, 0⟩], [⟨0.5, 0.5, 0⟩]) ∧
    ([⟨0, 0, 0⟩] : List HandLandmark).length ≠ ([] : List HandLandmark).length ∧
    Part004.smoothLandmarks [⟨0, 0, 0⟩] [] = ([], []) :=
  ⟨smoothLandmarks_verbatim_cases.1 _, by simp,
    smoothLandmarks_verbatim_cases.2 _ _ (Or.inr (by simp))⟩

/-- **C8** — Defensive behaviour of `detectGesture`: an absent landmarks
argument or an array of fewer than 21 points yields `NONE` with the stored
state unchanged, and whenever the geometric body faults the exception is
caught and the call degrades to `NONE` with the stored state unchanged. -/
theorem detectGesture_never_throws :
    (∀ (st : List HandLandmark) (tool : Gestures.Tool),
      Gestures.detectGesture st none tool = (.NONE, st)) ∧
    (∀ (st l : List HandLandmark) (tool : Gestures.Tool), l.length < 21 →
      Gestures.detectGesture st (some l) tool = (.NONE, st)) ∧
    (∀ (st l : List HandLandmark) (tool : Gestures.Tool),
      Gestures.detectGestureBody st l tool = .error () →
      Gestures.detectGesture st (some l) tool = (.NONE, st)) := by
  refine ⟨fun st tool => rfl, ?_, ?_⟩
  · intro st l tool h
    simp [Gestures.detectGesture, h]
  · intro st l tool h
    by_cases h21 : l.length < 21
    · simp [Gestures.detectGesture, h21]
    · simp [Gestures.detectGesture, h21, h]

/-- Witness for C8: the empty array is short, and a 22-point frame against a
21-point stored state makes the body fault; both degrade to `NONE`. -/
theorem detectGesture_never_throws_witness :
    (([] : List HandLandmark).length < 21 ∧
      Gestures.detectGesture [] (some []) .draw = (.NONE, [])) ∧
    Gestures.detectGestureBody (List.replicate 21 ⟨0, 0, 0⟩)
        (List.replicate 22 ⟨0, 0, 0⟩) .draw = .error () ∧
    Gestures.detectGesture (List.replicate 21 ⟨0, 0, 0⟩)
        (some (List.replicate 22 ⟨0, 0, 0⟩)) .draw =
      (.NONE, List.replicate 21 ⟨0, 0, 0⟩) := by
  have herr : Gestures.detectGestureBody (List.replicate 21 (⟨0, 0, 0⟩ : HandLandmark))
      (List.replicate 22 ⟨0, 0, 0⟩) .draw = .error () := by
    simp [Gestures.detectGestureBody, Gestures.smoothLandmarks]
  exact ⟨⟨by simp, detectGesture_never_throws.2.1 _ _ _ (by simp)⟩, herr,
    detectGesture_never_throws.2.2 _ _ _ herr⟩

theorem Gestures.smoothPoint_mem_unit (prev landmark : HandLandmark)
    (hp : inUnitBox prev) (hc : inUnitBox landmark) :
    inUnitBox (Gestures.smoothPoint prev landmark) := by
  have hw := Gestures.dynSmoothing_mem prev landmark
  simp only [Set.mem_Icc] at hw
  obtain ⟨hpx, hpy, hpz⟩ := hp
  obtain ⟨hcx, hcy, hcz⟩ := hc
  simp only [Set.mem_Icc] at hpx hpy hpz hcx hcy hcz
  simp only [inUnitBox, Set.mem_Icc, Gestures.smoothPoint]
  refine ⟨⟨?_, ?_⟩, ⟨?_, ?_⟩, ⟨?_, ?_⟩⟩ <;> nlinarith [hw.1, hw.2]

/-- **C5** — On every smoothing call after the first with matching
cardinality, the output point at each index is the blend
`prev[i]*w_i + frame[i]*(1-w_i)` with
`w_i = max(w_min, w_base - v_i*k)`, `v_i` the Euclidean `x,y,z` displacement,
and the constants `w_base = smoothingFactor = 0.5 ∈ [0.5, 0.65]`,
`k = 0.6 ∈ [0.5, 0.6]`, `w_min = 0.2 ∈ [0.2, 0.3]`; the stored state is
replaced with this output, not with the raw input. -/
theorem smoothLandmarks_pointwise_formula (st frame : List HandLandmark)
    (hne : st ≠ []) (hlen : st.length = frame.length) :
    ∃ out : List HandLandmark,
      Gestures.smoothLandmarks st frame = .ok (out, out) ∧
      out.length = frame.length ∧
      Gestures.smoothingFactor ∈ Set.Icc (0.5 : ℝ) 0.65 ∧
      (0.6 : ℝ) ∈ Set.Icc (0.5 : ℝ) 0.6 ∧
      (0.2 : ℝ) ∈ Set.Icc (0.2 : ℝ) 0.3 ∧
      ∀ i, i < frame.length →
        lm out i =
          let v := dist3 (lm st i) (lm frame i)
          let w := max 0.2 (Gestures.smoothingFactor - v * 0.6)
          ⟨(lm st i).x * w + (lm frame i).x * (1 - w),
           (lm st i).y * w + (lm frame i).y * (1 - w),
           (lm st i).z * w + (lm frame i).z * (1 - w)⟩ := by
  refine ⟨List.zipWith (fun landmark prev => Gestures.smoothPoint prev landmark) frame st,
    Gestures.smoothLandmarks_eq_zipWith st frame hne (le_of_eq hlen.symm), ?_, ?_, ?_, ?_, ?_⟩
  · simp only [List.length_zipWith]
    omega
  · rw [Set.mem_Icc, Gestures.smoothingFactor]
    norm_num
  · rw [Set.mem_Icc]
    norm_num
  · rw [Set.mem_Icc]
    norm_num
  · intro i hi
    rw [lm_zipWith _ _ _ hi (hlen ▸ hi)]
    rfl

/-- Witness for C5 at a one-point state and frame. -/
theorem smoothLandmarks_pointwise_formula_witness :
    (([⟨0, 0, 0⟩] : List HandLandmark) ≠ [] ∧
      ([⟨0, 0, 0⟩] : List HandLandmark).length = ([⟨0, 0, 0⟩] : List HandLandmark).length) ∧
    Gestures.smoothLandmarks [⟨0, 0, 0⟩] [⟨0, 0, 0⟩] = .ok ([⟨0, 0, 0⟩], [⟨0, 0, 0⟩]) := by
  refine ⟨⟨by simp, rfl⟩, ?_⟩
  obtain ⟨out, hok, hl, _, _, _, hf⟩ :=
    smoothLandmarks_pointwise_formula [⟨0, 0, 0⟩] [⟨0, 0, 0⟩] (by simp) rfl
  have hout : out = [⟨0, 0, 0⟩] := by
    have hl1 : out.length = 1 := by simpa using hl
    obtain ⟨a, rfl⟩ : ∃ a, out = [a] := by
      cases out with
      | nil => simp at hl1
      | cons a t =>
        cases t with
        | nil => exact ⟨a, rfl⟩
        | cons b t2 => simp at hl1
    have h0 := hf 0 (by norm_num)
    simp only [lm, List.getD_cons_zero] at h0
    rw [h0]
    ext
    all_goals ring_nf
  rw [hout] at hok
  exact hok

/-- **C6** — Smoothing never overshoots: if every per-point displacement
between the stored state and the incoming frame is at most `D`, then every
per-point displacement between the stored state and the smoothed output is at
most `D`. -/
theorem smoothLandmarks_no_overshoot (st frame : List HandLandmark) (D : ℝ)
    (hne : st ≠ []) (hlen : st.length = frame.length)
    (hD : ∀ i, i < frame.length → dist3 (lm st i) (lm frame i) ≤ D) :
    ∀ out st2, Gestures.smoothLandmarks st frame = .ok (out, st2) →
      ∀ i, i < frame.length → dist3 (lm st i) (lm out i) ≤ D := by
  intro out st2 hok i hi
  rw [Gestures.smoothLandmarks_eq_zipWith st frame hne (le_of_eq hlen.symm)] at hok
  have hout : out = List.zipWith (fun landmark prev => Gestures.smoothPoint prev landmark)
      frame st := by
    cases hok
    rfl
  subst hout
  rw [lm_zipWith _ _ _ hi (hlen ▸ hi), Gestures.dist3_smoothPoint]
  have hw := Gestures.dynSmoothing_mem (lm st i) (lm frame i)
  simp only [Set.mem_Icc] at hw
  have hv := dist3_nonneg (lm st i) (lm frame i)
  have h1 : (1 - Gestures.dynSmoothing (lm st i) (lm frame i)) *
      dist3 (lm st i) (lm frame i) ≤ dist3 (lm st i) (lm frame i) := by
    nlinarith [hw.1, hw.2]
  exact le_trans h1 (hD i hi)

/-- Witness for C6 at a one-point state and frame with displacement bound 0. -/
theorem smoothLandmarks_no_overshoot_witness :
    (([⟨0, 0, 0⟩] : List HandLandmark) ≠ []) ∧
    (∀ out st2, Gestures.smoothLandmarks [⟨0, 0, 0⟩] [⟨0, 0, 0⟩] = .ok (out, st2) →
      ∀ i, i < ([⟨0, 0, 0⟩] : List HandLandmark).length →
        dist3 (lm [⟨0, 0, 0⟩] i) (lm out i) ≤ 0) := by
  refine ⟨by simp, smoothLandmarks_no_overshoot _ _ 0 (by simp) rfl ?_⟩
  intro i hi
  have hi1 : i = 0 := by simpa using hi
  subst hi1
  simp only [lm, List.getD_cons_zero]
  rw [dist3_self]

/-- **C10** — Each smoothed coordinate is a convex combination of the stored
coordinate and the raw coordinate: the weight lies in `[w_min, w_base] =
[0.2, 0.5] ⊆ [0, 1]`, so if every coordinate of the stored state and of the
input frame lies in `[0, 1]`, so does every coordinate of the output and of
the updated stored state, on every call that produces a result. -/
theorem smoothing_convex_unit_box :
    (∀ prev landmark : HandLandmark,
      Gestures.dynSmoothing prev landmark ∈ Set.Icc (0.2 : ℝ) 0.5) ∧
    (∀ st frame out st2 : List HandLandmark,
      Gestures.smoothLandmarks st frame = .ok (out, st2) →
      (∀ p ∈ st, inUnitBox p) → (∀ p ∈ frame, inUnitBox p) →
      (∀ p ∈ out, inUnitBox p) ∧ ∀ p ∈ st2, inUnitBox p) := by
  refine ⟨Gestures.dynSmoothing_mem, ?_⟩
  intro st frame out st2 hok hst hframe
  unfold Gestures.smoothLandmarks at hok
  split_ifs at hok with h1 h2
  · cases hok
    exact ⟨hframe, hframe⟩
  · have hall : ∀ p ∈ List.zipWith (fun landmark prev => Gestures.smoothPoint prev landmark)
        frame st, inUnitBox p := by
      intro p hp
      rw [List.mem_iff_getElem] at hp
      obtain ⟨i, hiZ, rfl⟩ := hp
      rw [List.getElem_zipWith]
      exact Gestures.smoothPoint_mem_unit _ _
        (hst _ (List.getElem_mem _)) (hframe _ (List.getElem_mem _))
    cases hok
    exact ⟨hall, hall⟩

/-- Witness for C10 on a first call with one in-range landmark. -/
theorem smoothing_convex_unit_box_witness :
    Gestures.smoothLandmarks [] [⟨0.5, 0.5, 0⟩] =
      .ok ([⟨0.5, 0.5, 0⟩], [⟨0.5, 0.5, 0⟩]) ∧
    (∀ p ∈ ([⟨0.5, 0.5, 0⟩] : List HandLandmark), inUnitBox p) := by
  have hbox : ∀ p ∈ ([⟨0.5, 0.5, 0⟩] : List HandLandmark), inUnitBox p := by
    intro p hp
    rw [List.mem_singleton] at hp
    subst hp
    refine ⟨?_, ?_, ?_⟩ <;> rw [Set.mem_Icc] <;> norm_num
  have h := (smoothing_convex_unit_box.2 [] [⟨0.5, 0.5, 0⟩] [⟨0.5, 0.5, 0⟩] [⟨0.5, 0.5, 0⟩]
    (Gestures.smoothLandmarks_nil _) (by simp) hbox).1
  exact ⟨Gestures.smoothLandmarks_nil _, h⟩

/-- **C1** (counterexample) — The claimed decision order fails on the
feature-complete classifier: on `ClaimC1.frame` (index raised, thumb tip on
the index tip, hence pinching at any positive threshold) with tool `draw`,
the code returns `DRAWING` because its second branch tests only the fixed
index-raised check, whereas the claimed order returns `NONE` because the
pinch excludes the second branch. -/
theorem detectGesture_claimed_order_fails :
    (Gestures.detectGesture [] (some ClaimC1.frame) .draw).1 = .DRAWING ∧
    ClaimC1.decision ClaimC1.frame .draw = .NONE ∧
    Gestures.GestureType.DRAWING ≠ Gestures.GestureType.NONE := by
  have hlen : ClaimC1.frame.length = 21 := mkFrame_length _
  have h4 : lm ClaimC1.frame 4 = ⟨0.5, 0.3, 0⟩ := by
    simp only [ClaimC1.frame]
    rw [lm_mkFrame _ (by norm_num)]
    norm_num
  have h8 : lm ClaimC1.frame 8 = ⟨0.5, 0.3, 0⟩ := by
    simp only [ClaimC1.frame]
    rw [lm_mkFrame _ (by norm_num)]
    norm_num
  have h5 : lm ClaimC1.frame 5 = ⟨0.5, 0.5, 0⟩ := by
    simp only [ClaimC1.frame]
    rw [lm_mkFrame _ (by norm_num)]
    norm_num
  have h9 : lm ClaimC1.frame 9 = ⟨0.6, 0.5, 0⟩ := by
    simp only [ClaimC1.frame]
    rw [lm_mkFrame _ (by norm_num)]
    norm_num
  have hpinch : ClaimC1.pinch ClaimC1.frame := by
    unfold ClaimC1.pinch Gestures.thumbIndexDistance Gestures.handScale
    rw [h4, h8, h5, h9]
    have hs : (0 : ℝ) < Real.sqrt (((0.5 : ℝ) - 0.6) ^ 2 + ((0.5 : ℝ) - 0.5) ^ 2) :=
      Real.sqrt_pos.mpr (by norm_num)
    have hz : Real.sqrt (((0.5 : ℝ) - 0.5) ^ 2 + ((0.3 : ℝ) - 0.3) ^ 2) = 0 := by
      norm_num
    rw [hz]
    nlinarith
  have hraised : Gestures.isIndexFingerRaised ClaimC1.frame := by
    refine ⟨by rw [hlen]; norm_num, ?_⟩
    rw [h5, h8]
    norm_num
  have hc1 : ¬ (Gestures.isPinching ClaimC1.frame ∧ Gestures.Tool.draw = .erase) := by
    rintro ⟨-, h⟩
    exact absurd h (by decide)
  refine ⟨?_, ?_, by decide⟩
  · rw [Gestures.detectGesture_eval [] ClaimC1.frame .draw (by omega) _ _
      (Gestures.smoothLandmarks_nil _)]
    rw [if_neg hc1, if_pos hraised]
    rfl
  · unfold ClaimC1.decision
    rw [if_neg, if_neg]
    · rintro ⟨-, -, hnp⟩
      exact hnp hpinch
    · rintro ⟨-, h⟩
      exact absurd h (by decide)

/-- **C1** (amended) — Actual decision order of the feature-complete
classifier, first match wins: pinch and tool Erase give Erasing; else the
fixed index-raised check alone (no middle-finger and no pinch condition)
gives the tool-dependent gesture (Draw → Drawing, Line → Line, Rectangle →
Rectangle, Circle → Circle, others → None); else None. -/
theorem detectGesture_decision (st l : List HandLandmark) (tool : Gestures.Tool)
    (h21 : 21 ≤ l.length) (sm st2 : List HandLandmark)
    (hsm : Gestures.smoothLandmarks st l = .ok (sm, st2)) :
    Gestures.detectGesture st (some l) tool =
      (if Gestures.isPinching sm ∧ tool = .erase then .ERASING
       else if Gestures.isIndexFingerRaised sm then
         match tool with
         | .draw => .DRAWING
         | .line => .LINE
         | .rectangle => .RECTANGLE
         | .circle => .CIRCLE
         | _ => .NONE
       else .NONE, st2) := by
  rw [Gestures.detectGesture_eval st l tool (Nat.not_lt.mpr h21) sm st2 hsm]
  rcases tool <;> rfl

/-- Witness for the amended C1: a frame with the index raised and no pinch,
tool `draw`, classifies as `DRAWING`. -/
theorem detectGesture_decision_witness :
    21 ≤ ClaimC1.witFrame.length ∧
    Gestures.detectGesture [] (some ClaimC1.witFrame) .draw =
      (.DRAWING, ClaimC1.witFrame) := by
  have hlen : ClaimC1.witFrame.length = 21 := mkFrame_length _
  have h5 : lm ClaimC1.witFrame 5 = ⟨0.5, 0.5, 0⟩ := by
    simp only [ClaimC1.witFrame]
    rw [lm_mkFrame _ (by norm_num)]
    norm_num
  have h8 : lm ClaimC1.witFrame 8 = ⟨0.5, 0.3, 0⟩ := by
    simp only [ClaimC1.witFrame]
    rw [lm_mkFrame _ (by norm_num)]
    norm_num
  have hraised : Gestures.isIndexFingerRaised ClaimC1.witFrame := by
    refine ⟨by rw [hlen]; norm_num, ?_⟩
    rw [h5, h8]
    norm_num
  have hnp : ¬ (Gestures.isPinching ClaimC1.witFrame ∧ Gestures.Tool.draw = .erase) := by
    rintro ⟨-, h⟩
    exact absurd h (by decide)
  have h := detectGesture_decision [] ClaimC1.witFrame .draw (by omega) _ _
    (Gestures.smoothLandmarks_nil _)
  refine ⟨by omega, ?_⟩
  rw [h, if_neg hnp, if_pos hraised]

theorem scaleAboutWrist_length (frame : List HandLandmark) :
    (scaleAboutWrist frame).length = frame.length := by
  simp [scaleAboutWrist]

theorem lm_scaleAboutWrist_x (frame : List HandLandmark) {i : ℕ} (hi : i < frame.length) :
    (lm (scaleAboutWrist frame) i).x = (lm frame 0).x + 2 * ((lm frame i).x - (lm frame 0).x) := by
  simp [scaleAboutWrist, lm, List.getD_eq_getElem?_getD, List.getElem?_map,
    List.getElem?_eq_getElem, hi]

theorem lm_scaleAboutWrist_y (frame : List HandLandmark) {i : ℕ} (hi : i < frame.length) :
    (lm (scaleAboutWrist frame) i).y = (lm frame 0).y + 2 * ((lm frame i).y - (lm frame 0).y) := by
  simp [scaleAboutWrist, lm, List.getD_eq_getElem?_getD, List.getElem?_map,
    List.getElem?_eq_getElem, hi]

theorem sqrt_four_mul (x : ℝ) : Real.sqrt (4 * x) = 2 * Real.sqrt x := by
  rw [show (4 : ℝ) = 2 ^ 2 by norm_num, Real.sqrt_mul (by positivity) x,
    Real.sqrt_sq (by norm_num)]

theorem Gestures.handScale_scaleAboutWrist (l : List HandLandmark) (h21 : 21 ≤ l.length) :
    Gestures.handScale (scaleAboutWrist l) = 2 * Gestures.handScale l := by
  unfold Gestures.handScale
  rw [lm_scaleAboutWrist_x l (by omega : (5 : ℕ) < l.length),
    lm_scaleAboutWrist_x l (by omega : (9 : ℕ) < l.length),
    lm_scaleAboutWrist_y l (by omega : (5 : ℕ) < l.length),
    lm_scaleAboutWrist_y l (by omega : (9 : ℕ) < l.length)]
  rw [show
    ((lm l 0).x + 2 * ((lm l 5).x - (lm l 0).x) -
        ((lm l 0).x + 2 * ((lm l 9).x - (lm l 0).x))) ^ 2 +
      ((lm l 0).y + 2 * ((lm l 5).y - (lm l 0).y) -
        ((lm l 0).y + 2 * ((lm l 9).y - (lm l 0).y))) ^ 2 =
    4 * (((lm l 5).x - (lm l 9).x) ^ 2 + ((lm l 5).y - (lm l 9).y) ^ 2) by ring]
  exact sqrt_four_mul _

theorem Gestures.thumbIndexDistance_scaleAboutWrist (l : List HandLandmark)
    (h21 : 21 ≤ l.length) :
    Gestures.thumbIndexDistance (scaleAboutWrist l) = 2 * Gestures.thumbIndexDistance l := by
  unfold Gestures.thumbIndexDistance
  rw [lm_scaleAboutWrist_x l (by omega : (4 : ℕ) < l.length),
    lm_scaleAboutWrist_x l (by omega : (8 : ℕ) < l.length),
    lm_scaleAboutWrist_y l (by omega : (4 : ℕ) < l.length),
    lm_scaleAboutWrist_y l (by omega : (8 : ℕ) < l.length)]
  rw [show
    ((lm l 0).x + 2 * ((lm l 4).x - (lm l 0).x) -
        ((lm l 0).x + 2 * ((lm l 8).x - (lm l 0).x))) ^ 2 +
      ((lm l 0).y + 2 * ((lm l 4).y - (lm l 0).y) -
        ((lm l 0).y + 2 * ((lm l 8).y - (lm l 0).y))) ^ 2 =
    4 * (((lm l 4).x - (lm l 8).x) ^ 2 + ((lm l 4).y - (lm l 8).y) ^ 2) by ring]
  exact sqrt_four_mul _

theorem offset_scaleAboutWrist (l : List HandLandmark) (h21 : 21 ≤ l.length) :
    (lm (scaleAboutWrist l) 5).y - (lm (scaleAboutWrist l) 8).y =
      2 * ((lm l 5).y - (lm l 8).y) := by
  rw [lm_scaleAboutWrist_y l (by omega : (5 : ℕ) < l.length),
    lm_scaleAboutWrist_y l (by omega : (8 : ℕ) < l.length)]
  ring

theorem Gestures.isPinching_scaleAboutWrist (l : List HandLandmark) (h21 : 21 ≤ l.length) :
    Gestures.isPinching (scaleAboutWrist l) ↔ Gestures.isPinching l := by
  unfold Gestures.isPinching
  rw [Gestures.handScale_scaleAboutWrist l h21,
    Gestures.thumbIndexDistance_scaleAboutWrist l h21]
  constructor <;> intro h <;> nlinarith

theorem Gestures.isIndexFingerRaised_scaleAboutWrist (l : List HandLandmark)
    (h21 : 21 ≤ l.length)
    (hoff : (lm l 5).y - (lm l 8).y ≤ 0.04 ∨ 0.08 < (lm l 5).y - (lm l 8).y) :
    Gestures.isIndexFingerRaised (scaleAboutWrist l) ↔ Gestures.isIndexFingerRaised l := by
  unfold Gestures.isIndexFingerRaised
  rw [scaleAboutWrist_length, offset_scaleAboutWrist l h21]
  rcases hoff with h | h
  · apply iff_of_false
    · rintro ⟨-, hlt⟩
      nlinarith
    · rintro ⟨-, hlt⟩
      nlinarith
  · constructor <;> rintro ⟨h13, -⟩ <;> exact ⟨h13, by nlinarith⟩

/-- **C3** (counterexample) — Classification is not scale invariant: on
`c3Frame` (index offset 0.05, below the fixed raised threshold 0.08) the
classifier returns `NONE`, but on the 2×-scaled copy about the wrist (offset
0.1) it returns `DRAWING`, both from an empty smoother state with tool
`draw`. -/
theorem detectGesture_scale_variance :
    (Gestures.detectGesture [] (some c3Frame) .draw).1 = .NONE ∧
    (Gestures.detectGesture [] (some (scaleAboutWrist c3Frame)) .draw).1 = .DRAWING := by
  have hlen : c3Frame.length = 21 := mkFrame_length _
  have h5 : lm c3Frame 5 = ⟨0.5, 0.5, 0⟩ := by
    simp only [c3Frame]
    rw [lm_mkFrame _ (by norm_num)]
    norm_num
  have h8 : lm c3Frame 8 = ⟨0.5, 0.45, 0⟩ := by
    simp only [c3Frame]
    rw [lm_mkFrame _ (by norm_num)]
    norm_num
  constructor
  · rw [Gestures.detectGesture_eval [] c3Frame .draw (by omega) _ _
      (Gestures.smoothLandmarks_nil _)]
    have hntool : ¬ (Gestures.isPinching c3Frame ∧ Gestures.Tool.draw = .erase) := by
      rintro ⟨-, h⟩
      exact absurd h (by decide)
    have hnraised : ¬ Gestures.isIndexFingerRaised c3Frame := by
      rintro ⟨-, hlt⟩
      rw [h5, h8] at hlt
      norm_num at hlt
    rw [if_neg hntool, if_neg hnraised]
  · have hslen : (scaleAboutWrist c3Frame).length = 21 := by
      rw [scaleAboutWrist_length, hlen]
    rw [Gestures.detectGesture_eval [] _ .draw (by omega) _ _
      (Gestures.smoothLandmarks_nil _)]
    have hntool : ¬ (Gestures.isPinching (scaleAboutWrist c3Frame) ∧
        Gestures.Tool.draw = .erase) := by
      rintro ⟨-, h⟩
      exact absurd h (by decide)
    have hraised : Gestures.isIndexFingerRaised (scaleAboutWrist c3Frame) := by
      refine ⟨by rw [hslen]; norm_num, ?_⟩
      rw [offset_scaleAboutWrist c3Frame (by omega), h5, h8]
      norm_num
    rw [if_neg hntool, if_pos hraised]
    rfl

/-- **C3** (amended) — For classification from an empty smoother state, the
pinch and hand-scale tests are invariant under 2×-scaling about the wrist,
so the gesture is preserved for every tool provided the index offset
`indexMCP.y − indexTip.y` does not lie in the interval `(0.04, 0.08]` where
the fixed raised threshold 0.08 separates the frame from its scaled copy. -/
theorem detectGesture_scale_invariant_offset (l : List HandLandmark) (tool : Gestures.Tool)
    (h21 : 21 ≤ l.length)
    (hoff : (lm l 5).y - (lm l 8).y ≤ 0.04 ∨ 0.08 < (lm l 5).y - (lm l 8).y) :
    (Gestures.detectGesture [] (some (scaleAboutWrist l)) tool).1 =
      (Gestures.detectGesture [] (some l) tool).1 := by
  have hslen : (scaleAboutWrist l).length = l.length := scaleAboutWrist_length l
  rw [Gestures.detectGesture_eval [] _ tool (by omega) _ _ (Gestures.smoothLandmarks_nil _),
    Gestures.detectGesture_eval [] _ tool (by omega) _ _ (Gestures.smoothLandmarks_nil _)]
  have hp := Gestures.isPinching_scaleAboutWrist l h21
  have hr := Gestures.isIndexFingerRaised_scaleAboutWrist l h21 hoff
  exact if_congr (and_congr_left' hp) rfl (if_congr hr rfl rfl)

/-- Witness for the amended C3: a resting frame (offset 0, outside
`(0.04, 0.08]`) classifies identically to its scaled copy. -/
theorem detectGesture_scale_invariant_offset_witness :
    ((lm restFrame 5).y - (lm restFrame 8).y ≤ 0.04 ∨
      0.08 < (lm restFrame 5).y - (lm restFrame 8).y) ∧
    (Gestures.detectGesture [] (some (scaleAboutWrist restFrame)) .draw).1 =
      (Gestures.detectGesture [] (some restFrame) .draw).1 := by
  have hlen : restFrame.length = 21 := mkFrame_length _
  have h5 : lm restFrame 5 = ⟨0.5, 0.5, 0⟩ := by
    simp only [restFrame]
    rw [lm_mkFrame _ (by norm_num)]
  have h8 : lm restFrame 8 = ⟨0.5, 0.5, 0⟩ := by
    simp only [restFrame]
    rw [lm_mkFrame _ (by norm_num)]
  have hoff : (lm restFrame 5).y - (lm restFrame 8).y ≤ 0.04 ∨
      0.08 < (lm restFrame 5).y - (lm restFrame 8).y := by
    left
    rw [h5, h8]
    norm_num
  exact ⟨hoff, detectGesture_scale_invariant_offset restFrame .draw (by omega) hoff⟩

theorem Canvas.lerp_x (a b : Canvas.Point) (s i : ℕ) :
    (Canvas.lerp a b s i).x = a.x + (b.x - a.x) * ((i : ℝ) / (s : ℝ)) := rfl

theorem Canvas.lerp_y (a b : Canvas.Point) (s i : ℕ) :
    (Canvas.lerp a b s i).y = a.y + (b.y - a.y) * ((i : ℝ) / (s : ℝ)) := rfl

theorem Canvas.dist2_vertical (x y1 y2 : ℝ) (h : y1 ≤ y2) :
    Canvas.dist2 ⟨x, y1⟩ ⟨x, y2⟩ = y2 - y1 := by
  simp only [Canvas.dist2]
  rw [show (x - x) * (x - x) + (y2 - y1) * (y2 - y1) = (y2 - y1) ^ 2 by ring,
    Real.sqrt_sq (by linarith)]

theorem cons_drop_range {n : ℕ} (hn : 0 < n) :
    0 :: (List.range n).drop 1 = List.range n := by
  cases n with
  | zero => omega
  | succ k =>
    rw [List.range_succ_eq_map]
    simp

theorem Canvas.landmarkAccept_gap (queue : List Canvas.Point) (lastPoint p : Canvas.Point)
    (hgap : 15 < Canvas.dist2 lastPoint p) :
    Canvas.landmarkAccept queue lastPoint p =
      (queue ++ Canvas.synthPoints lastPoint p ⌊Canvas.dist2 lastPoint p / 5⌋₊ ++ [p], p) := by
  simp only [Canvas.landmarkAccept]
  rw [if_pos (by linarith : (1 : ℝ) < Canvas.dist2 lastPoint p), if_pos hgap,
    List.append_assoc]

theorem Canvas.pointerMoveAccept_far (queue : List Canvas.Point) (lastPoint p : Canvas.Point)
    (h1 : 1 < Canvas.dist2 lastPoint p) :
    Canvas.pointerMoveAccept queue lastPoint p = (queue ++ [p], p) := by
  simp only [Canvas.pointerMoveAccept]
  rw [if_pos h1]

theorem Canvas.synthPoints_spine (lastPoint p : Canvas.Point) {n : ℕ} (hn : 0 < n) :
    lastPoint :: (Canvas.synthPoints lastPoint p n ++ [p]) =
      (List.range (n + 1)).map (Canvas.lerp lastPoint p n) := by
  have hg0 : Canvas.lerp lastPoint p n 0 = lastPoint := by
    ext <;> simp [Canvas.lerp]
  have hne : (n : ℝ) ≠ 0 := Nat.cast_ne_zero.mpr (by omega)
  have hgn : Canvas.lerp lastPoint p n n = p := by
    ext
    · rw [Canvas.lerp_x, div_self hne]
      ring
    · rw [Canvas.lerp_y, div_self hne]
      ring
  rw [List.range_succ, List.map_append, Canvas.synthPoints,
    show List.map (Canvas.lerp lastPoint p n) [n] = [p] by simp [hgn],
    ← cons_drop_range hn, List.map_cons, hg0]
  rfl

theorem Canvas.lerp_spacing (lastPoint p : Canvas.Point) {n : ℕ} (hn : 0 < n) (m : ℕ) :
    Canvas.dist2 (Canvas.lerp lastPoint p n m) (Canvas.lerp lastPoint p n (m + 1)) =
      Canvas.dist2 lastPoint p / (n : ℝ) := by
  have hne : (n : ℝ) ≠ 0 := Nat.cast_ne_zero.mpr (by omega)
  have h1n : (0 : ℝ) ≤ 1 / (n : ℝ) := by positivity
  unfold Canvas.dist2
  rw [Canvas.lerp_x, Canvas.lerp_x, Canvas.lerp_y, Canvas.lerp_y]
  push_cast
  have key : ∀ a da : ℝ,
      a + da * (((m : ℝ) + 1) / (n : ℝ)) - (a + da * ((m : ℝ) / (n : ℝ))) =
        da * (1 / (n : ℝ)) := by
    intro a da
    field_simp
    ring
  rw [key, key]
  rw [show (p.x - lastPoint.x) * (1 / (n : ℝ)) * ((p.x - lastPoint.x) * (1 / (n : ℝ))) +
      (p.y - lastPoint.y) * (1 / (n : ℝ)) * ((p.y - lastPoint.y) * (1 / (n : ℝ))) =
      ((p.x - lastPoint.x) * (p.x - lastPoint.x) +
        (p.y - lastPoint.y) * (p.y - lastPoint.y)) * (1 / (n : ℝ) * (1 / (n : ℝ))) by ring]
  have hS : 0 ≤ (p.x - lastPoint.x) * (p.x - lastPoint.x) +
      (p.y - lastPoint.y) * (p.y - lastPoint.y) := by
    nlinarith [mul_self_nonneg (p.x - lastPoint.x), mul_self_nonneg (p.y - lastPoint.y)]
  rw [Real.sqrt_mul hS, Real.sqrt_mul_self h1n, mul_one_div]

/-- **C7** (counterexample) — The pointer-device input path does not
tessellate: on the single jump from `(10, 10)` to `(10, 200)` (distance 190,
far above the gap threshold 15), `handlePointerMove` appends only the raw
point, so the queue holds two consecutive points 190 px apart and no
intermediate point is synthesized. -/
theorem pointerMove_gap_unfilled :
    Canvas.pointerMoveAccept [⟨10, 10⟩] ⟨10, 10⟩ ⟨10, 200⟩ =
      ([⟨10, 10⟩, ⟨10, 200⟩], ⟨10, 200⟩) ∧
    Canvas.dist2 ⟨10, 10⟩ ⟨10, 200⟩ = 190 ∧ (15 : ℝ) < 190 ∧ (5 : ℝ) < 190 := by
  have hd : Canvas.dist2 ⟨10, 10⟩ ⟨10, 200⟩ = 190 := by
    rw [Canvas.dist2_vertical 10 10 200 (by norm_num)]
    norm_num
  refine ⟨?_, hd, by norm_num, by norm_num⟩
  rw [Canvas.pointerMoveAccept_far _ _ _ (by rw [hd]; norm_num)]
  rfl

/-- **C7** (amended) — Only the landmark input path tessellates: when the
distance `d` from the last accepted point exceeds the gap threshold 15, it
synthesizes `⌊d/5⌋ - 1 ≥ 2` equally spaced intermediate points by linear
interpolation before the real point, every consecutive emitted pair lying
exactly `d / ⌊d/5⌋` apart — a spacing that can slightly exceed the step
length 5 but is always below `20/3`; pointer-device moves append the raw
point with no subdivision. -/
theorem landmark_tessellation (queue : List Canvas.Point) (lastPoint p : Canvas.Point)
    (hgap : 15 < Canvas.dist2 lastPoint p) :
    Canvas.landmarkAccept queue lastPoint p =
      (queue ++ Canvas.synthPoints lastPoint p ⌊Canvas.dist2 lastPoint p / 5⌋₊ ++ [p], p) ∧
    (Canvas.synthPoints lastPoint p ⌊Canvas.dist2 lastPoint p / 5⌋₊).length =
      ⌊Canvas.dist2 lastPoint p / 5⌋₊ - 1 ∧
    2 ≤ (Canvas.synthPoints lastPoint p ⌊Canvas.dist2 lastPoint p / 5⌋₊).length ∧
    List.Chain'
      (fun a b => Canvas.dist2 a b =
        Canvas.dist2 lastPoint p / (⌊Canvas.dist2 lastPoint p / 5⌋₊ : ℝ))
      (lastPoint :: (Canvas.synthPoints lastPoint p ⌊Canvas.dist2 lastPoint p / 5⌋₊ ++ [p])) ∧
    Canvas.dist2 lastPoint p / (⌊Canvas.dist2 lastPoint p / 5⌋₊ : ℝ) < 20 / 3 ∧
    (∀ (q : List Canvas.Point) (last2 pt : Canvas.Point), 1 < Canvas.dist2 last2 pt →
      Canvas.pointerMoveAccept q last2 pt = (q ++ [pt], pt)) := by
  set d := Canvas.dist2 lastPoint p with hd
  set n := ⌊d / 5⌋₊ with hn
  have hd0 : 0 ≤ d := Real.sqrt_nonneg _
  have hn3 : 3 ≤ n := Nat.le_floor (by push_cast; linarith)
  have hn0 : 0 < n := by omega
  have hlen : (Canvas.synthPoints lastPoint p n).length = n - 1 := by
    simp [Canvas.synthPoints]
  refine ⟨Canvas.landmarkAccept_gap queue lastPoint p hgap, hlen, by omega, ?_, ?_, ?_⟩
  · rw [Canvas.synthPoints_spine lastPoint p hn0, List.chain'_map, List.chain'_range_succ]
    intro m hm
    exact Canvas.lerp_spacing lastPoint p hn0 m
  · have hge : (3 : ℝ) ≤ (n : ℝ) := by exact_mod_cast hn3
    rw [div_lt_iff₀ (by linarith : (0 : ℝ) < (n : ℝ))]
    have hfl : d / 5 < (n : ℝ) + 1 := by
      rw [hn]
      exact_mod_cast Nat.lt_floor_add_one (d / 5)
    linarith
  · intro q last2 pt h1
    exact Canvas.pointerMoveAccept_far q last2 pt h1

/-- Witness for the amended C7: the landmark jump from `(10, 10)` to
`(10, 200)` (distance 190) emits exactly 37 intermediate points, and every
consecutive emitted pair — from `(10, 10)` through the intermediates to
`(10, 200)` — lies exactly 5 px apart. -/
theorem landmark_tessellation_witness :
    (15 : ℝ) < Canvas.dist2 ⟨10, 10⟩ ⟨10, 200⟩ ∧
    Canvas.landmarkAccept [⟨10, 10⟩] ⟨10, 10⟩ ⟨10, 200⟩ =
      ([⟨10, 10⟩] ++ Canvas.synthPoints ⟨10, 10⟩ ⟨10, 200⟩ 38 ++ [⟨10, 200⟩], ⟨10, 200⟩) ∧
    (Canvas.synthPoints ⟨10, 10⟩ ⟨10, 200⟩ 38).length = 37 ∧
    List.Chain' (fun a b => Canvas.dist2 a b = 5)
      (⟨10, 10⟩ :: (Canvas.synthPoints ⟨10, 10⟩ ⟨10, 200⟩ 38 ++ [⟨10, 200⟩])) := by
  have hd : Canvas.dist2 ⟨10, 10⟩ ⟨10, 200⟩ = 190 := by
    rw [Canvas.dist2_vertical 10 10 200 (by norm_num)]
    norm_num
  have hgap : (15 : ℝ) < Canvas.dist2 ⟨10, 10⟩ ⟨10, 200⟩ := by
    rw [hd]
    norm_num
  have hfl : ⌊Canvas.dist2 ⟨10, 10⟩ ⟨10, 200⟩ / 5⌋₊ = 38 := by
    rw [hd, show (190 : ℝ) / 5 = ((38 : ℕ) : ℝ) by norm_num, Nat.floor_natCast]
  obtain ⟨heq, hlen, _, hchain, _, _⟩ :=
    landmark_tessellation [⟨10, 10⟩] ⟨10, 10⟩ ⟨10, 200⟩ hgap
  rw [hfl] at heq hlen hchain
  refine ⟨hgap, heq, by omega, ?_⟩
  have hval : Canvas.dist2 ⟨10, 10⟩ ⟨10, 200⟩ / ((38 : ℕ) : ℝ) = 5 := by
    rw [hd]
    norm_num
  exact hchain.imp fun a b hab => by rw [hab, hval]
